import Mathlib

/-!
Verification of the translation-quality analyzer (kdziurman/translator).

The development shallowly embeds the orchestration and aggregation logic of
the repository: the baseline selector and comparator of `analyzer.js`
(`analyzeTranslationQuality`, `analyzeAgainstBaseline`, `compareContent`,
`analyzeTerminologyConsistency`), the pipeline entry points of `analyzer.js`
and `translation-analyzer.js` (`analyzeUrl`), the scraper loop
(`scrapeMultipleLanguages` of `web-scraper.js`), and the report saver
(`saveReport` of `report-generator.js`).

External effects are passed in explicitly: the OpenAI calls become oracle
functions whose per-target outcome (parsed, salvaged from a malformed
response, or failed) is an input, HTTP fetching becomes a
`String → Option PageRecord` function (`none` models a raised fetch error),
and the file write of `saveReport` becomes a `WriteOutcome` input.
Console logging and ANSI coloring (chalk) are not modelled, except that the
log lines of `saveReport` are kept as plain strings because one claim is
about them.
-/

/-- Model of JavaScript `Math.round` on exact rational values: rounding half
away from zero upward, `Math.round(q) = ⌊q + 1/2⌋`.  The only rounding in the
analyzer is `Math.round(totalScore / totalComparisons)` on nonnegative
integers whose exact quotient is far enough from any representable-double
midpoint that the float computation agrees with the exact one. -/
def jsRound (q : ℚ) : ℤ := ⌊q + 1 / 2⌋

/-- Model of JavaScript `String.prototype.toUpperCase` (sufficient for the
ASCII language codes and titles that reach it). -/
def jsToUpper (s : String) : String := ⟨s.data.map Char.toUpper⟩

/-- `leadsWith l pat` is true when `pat` occurs at the very front of `l`. -/
def leadsWith : List Char → List Char → Bool
  | _, [] => true
  | [], _ :: _ => false
  | c :: cs, p :: ps => c == p && leadsWith cs ps

/-- `containsSeq l pat` is true when `pat` occurs contiguously anywhere in
`l`. -/
def containsSeq : List Char → List Char → Bool
  | [], pat => pat.isEmpty
  | c :: cs, pat => leadsWith (c :: cs) pat || containsSeq cs pat

/-- Model of JavaScript `String.prototype.includes` (substring test). -/
def strIncludes (s sub : String) : Bool := containsSeq s.data sub.data

/-- Model of JavaScript `String.prototype.startsWith`. -/
def jsStartsWith (s front : String) : Bool := leadsWith s.data front.data

/-- A scraped page, as produced by `WebScraper.scrapeUrl`.  The fields that
no analyzed code path reads (`metaDescription`, `headings`, `links`,
`paragraphs`) are omitted. -/
structure PageRecord where
  url : String
  title : String
  bodyText : String
  htmlLang : String
  detectedLanguage : String
  wordCount : Nat
  scrapedAt : String
  deriving DecidableEq

/-- One issue reported by the quality oracle, shaped as in the comparison
prompt of `analyzer.js` (`buildComparisonPrompt`). -/
structure Issue where
  type : String
  severity : String
  message : String
  context : Option String
  suggestion : Option String
  deriving DecidableEq

/-- One terminology inconsistency reported by the quality oracle. -/
structure TerminologyIssue where
  term : String
  baseline : String
  target : String
  suggestion : String
  deriving DecidableEq

/-- One brand-consistency finding reported by the quality oracle. -/
structure BrandIssue where
  brandElement : String
  issue : String
  suggestion : String
  deriving DecidableEq

/-- The parsed JSON object coming back from one quality-oracle call.  Every
field is optional: the source reads each with a `|| default` guard
(`analysis.qualityScore || 0`, `analysis.issues || []`, ...), so a missing
field is modelled as `none`. -/
structure Analysis where
  qualityScore : Option Nat
  issues : Option (List Issue)
  suggestions : Option (List String)
  terminologyIssues : Option (List TerminologyIssue)
  brandConsistency : Option (List BrandIssue)
  deriving DecidableEq

/-- The per-target result built by `compareContent`. -/
structure Comparison where
  targetUrl : String
  targetLanguage : String
  targetTitle : String
  qualityScore : Nat
  issues : List Issue
  suggestions : List String
  terminologyIssues : List TerminologyIssue
  brandConsistency : List BrandIssue
  deriving DecidableEq

/-- The `baseline` summary stored in `analysisResults` by
`analyzeAgainstBaseline`. -/
structure BaselineInfo where
  url : String
  language : String
  title : String
  wordCount : Nat
  deriving DecidableEq

/-- The `analysisResults` object built by `analyzeAgainstBaseline`. -/
structure AggregateResult where
  baseline : BaselineInfo
  comparisons : List Comparison
  overallScore : ℤ
  totalIssues : Nat
  criticalIssues : Nat
  deriving DecidableEq

/-- Outcome of one quality-oracle invocation inside `compareContent`:
`parsed` is a successful API call whose body `JSON.parse`d; `salvaged` is a
failure whose error text contained "JSON" and a brace-delimited substring
that parsed (the textual-extraction fallback); `failed` is any other raised
error or unparsable output. -/
inductive OracleOutcome where
  | parsed (a : Analysis)
  | salvaged (a : Analysis)
  | failed
  deriving DecidableEq

/-- The success-path result shape shared by the `parsed` and `salvaged`
branches of `compareContent`: target metadata is copied from the target
`PageRecord`, every analysis field is read with its `||` default. -/
def comparisonOfAnalysis (target : PageRecord) (a : Analysis) : Comparison :=
  { targetUrl := target.url
    targetLanguage := target.detectedLanguage
    targetTitle := target.title
    qualityScore := a.qualityScore.getD 0
    issues := a.issues.getD []
    suggestions := a.suggestions.getD []
    terminologyIssues := a.terminologyIssues.getD []
    brandConsistency := a.brandConsistency.getD [] }

/-- The synthetic issue built in the final catch branch of
`compareContent`. -/
def analysisErrorIssue : Issue :=
  { type := "analysis_error"
    severity := "critical"
    message := "Failed to analyze content"
    context := none
    suggestion := some "Check content accessibility" }

/-- The degraded comparison returned when a quality-oracle invocation fails
beyond repair. -/
def degradedComparison (target : PageRecord) : Comparison :=
  { targetUrl := target.url
    targetLanguage := target.detectedLanguage
    targetTitle := target.title
    qualityScore := 0
    issues := [analysisErrorIssue]
    suggestions := []
    terminologyIssues := []
    brandConsistency := [] }

/-- `TranslationAnalyzer.compareContent`, with the oracle call's outcome
passed in.  The `baseline` argument only feeds the prompt in the source, so
it is unused here. -/
def compareContent (_baseline target : PageRecord) : OracleOutcome → Comparison
  | OracleOutcome.parsed a => comparisonOfAnalysis target a
  | OracleOutcome.salvaged a => comparisonOfAnalysis target a
  | OracleOutcome.failed => degradedComparison target

/-- The `analysisResults` value before the comparison loop of
`analyzeAgainstBaseline` runs. -/
def initialAggregate (baseline : PageRecord) : AggregateResult :=
  { baseline :=
      { url := baseline.url
        language := baseline.detectedLanguage
        title := baseline.title
        wordCount := baseline.wordCount }
    comparisons := []
    overallScore := 0
    totalIssues := 0
    criticalIssues := 0 }

/-- One iteration of the comparison loop of `analyzeAgainstBaseline`: call
`compareContent`, push the comparison, add its issue count and its critical
issue count.  The second component records the oracle invocation
(baseline, target) so call order can be stated. -/
def aggStep (oracle : PageRecord → PageRecord → OracleOutcome) (baseline : PageRecord)
    (s : AggregateResult × List (PageRecord × PageRecord)) (content : PageRecord) :
    AggregateResult × List (PageRecord × PageRecord) :=
  let comparison := compareContent baseline content (oracle baseline content)
  ({ s.1 with
      comparisons := s.1.comparisons ++ [comparison]
      totalIssues := s.1.totalIssues + comparison.issues.length
      criticalIssues := s.1.criticalIssues +
        (comparison.issues.filter (fun issue => issue.severity == "critical")).length },
    s.2 ++ [(baseline, content)])

/-- `TranslationAnalyzer.analyzeAgainstBaseline`, also returning the list of
quality-oracle invocations in order.  Mirrors the source: filter out records
whose URL equals the baseline URL, loop `aggStep` over the remainder, then
set `overallScore` to `Math.round(totalScore / totalComparisons)` when there
is at least one comparison. -/
def analyzeAgainstBaselineTraced (oracle : PageRecord → PageRecord → OracleOutcome)
    (baseline : PageRecord) (allContent : List PageRecord) :
    AggregateResult × List (PageRecord × PageRecord) :=
  let contentToAnalyze := allContent.filter (fun content => content.url != baseline.url)
  let s := contentToAnalyze.foldl (aggStep oracle baseline) (initialAggregate baseline, [])
  let totalComparisons := s.1.comparisons.length
  if 0 < totalComparisons then
    let totalScore : Nat := s.1.comparisons.foldl (fun sum comp => sum + comp.qualityScore) 0
    ({ s.1 with overallScore := jsRound ((totalScore : ℚ) / (totalComparisons : ℚ)) }, s.2)
  else s

/-- `analyzeAgainstBaseline` proper: just the aggregate. -/
def analyzeAgainstBaseline (oracle : PageRecord → PageRecord → OracleOutcome)
    (baseline : PageRecord) (allContent : List PageRecord) : AggregateResult :=
  (analyzeAgainstBaselineTraced oracle baseline allContent).1

/-- The baseline predicate of `analyzeTranslationQuality` in `analyzer.js`:
`detectedLanguage === "en" || htmlLang === "en" || url.includes("/en/") ||
url.includes("/english/")`. -/
def isEnglishBaseline (content : PageRecord) : Bool :=
  content.detectedLanguage == "en" || content.htmlLang == "en" ||
    strIncludes content.url "/en/" || strIncludes content.url "/english/"

/-- The baseline choice of `analyzeTranslationQuality`: the first record
matching `isEnglishBaseline`, otherwise (with a console warning) the first
record of the sequence; `none` models the crash on an empty sequence. -/
def selectBaseline (scrapedContent : List PageRecord) : Option PageRecord :=
  match scrapedContent.find? isEnglishBaseline with
  | some english => some english
  | none => scrapedContent.head?

/-- The baseline predicate as the specification words it: only
`detectedLanguage == "en"` or a URL containing `/en/` or `/english/`
(no `htmlLang` clause).  Kept for comparison with `isEnglishBaseline`. -/
def specBaselinePred (content : PageRecord) : Bool :=
  content.detectedLanguage == "en" ||
    strIncludes content.url "/en/" || strIncludes content.url "/english/"

/-- Baseline selection as the specification describes it, built on
`specBaselinePred`.  Kept for comparison with `selectBaseline`. -/
def specSelectBaseline (scrapedContent : List PageRecord) : Option PageRecord :=
  match scrapedContent.find? specBaselinePred with
  | some english => some english
  | none => scrapedContent.head?

/-- `TranslationAnalyzer.analyzeTranslationQuality`: pick a baseline, then
run `analyzeAgainstBaseline` against the full sequence. -/
def analyzeTranslationQuality (oracle : PageRecord → PageRecord → OracleOutcome)
    (scrapedContent : List PageRecord) : Option AggregateResult :=
  match selectBaseline scrapedContent with
  | some baseline => some (analyzeAgainstBaseline oracle baseline scrapedContent)
  | none => none

/-- One term inconsistency in the consistency-oracle response, shaped as in
the terminology prompt of `analyzer.js`. -/
structure TermVariation where
  language : String
  version : String
  deriving DecidableEq

/-- One inconsistent term reported by the consistency oracle. -/
structure InconsistentTerm where
  term : String
  variations : List TermVariation
  recommendedTerm : String
  deriving DecidableEq

/-- One brand inconsistency reported by the consistency oracle. -/
structure BrandInconsistency where
  brandElement : String
  variations : List String
  recommendedVersion : String
  deriving DecidableEq

/-- The result shape of `analyzeTerminologyConsistency`. -/
structure ConsistencyResult where
  inconsistentTerms : List InconsistentTerm
  brandInconsistencies : List BrandInconsistency
  overallConsistencyScore : Nat
  deriving DecidableEq

/-- Outcome of the single consistency-oracle call inside
`analyzeTerminologyConsistency`: `parsed` when the response body parses,
`salvaged` when only the regex-extracted brace substring parses, `failed`
for a raised error, unparsable output, or output with no brace substring. -/
inductive ConsistencyOutcome where
  | parsed (r : ConsistencyResult)
  | salvaged (r : ConsistencyResult)
  | failed
  deriving DecidableEq

/-- The zeroed structure returned by the catch branch of
`analyzeTerminologyConsistency`. -/
def zeroedConsistency : ConsistencyResult :=
  { inconsistentTerms := []
    brandInconsistencies := []
    overallConsistencyScore := 0 }

/-- `TranslationAnalyzer.analyzeTerminologyConsistency`, with the oracle
call's outcome passed in.  The scraped records only feed the prompt. -/
def analyzeTerminologyConsistency (_scrapedContent : List PageRecord) :
    ConsistencyOutcome → ConsistencyResult
  | ConsistencyOutcome.parsed r => r
  | ConsistencyOutcome.salvaged r => r
  | ConsistencyOutcome.failed => zeroedConsistency

/-- The `"=".repeat(80)` separator line of the reports. -/
def eqBar : String := ⟨List.replicate 80 '='⟩

/-- `TranslationQualityAnalyzer.generateSingleLanguageReport` of
`analyzer.js`, with the `toLocaleString` timestamp passed in and the chalk
coloring dropped (chalk only wraps the text in ANSI escapes). -/
def generateSingleLanguageReport (timestamp : String) (content : PageRecord) : String :=
  ("\n" ++ eqBar ++ "\n📄 SINGLE LANGUAGE CONTENT ANALYSIS\n" ++ eqBar ++
    "\n\n📊 Content Summary:\n• Generated: " ++ timestamp ++
    "\n• URL: " ++ content.url ++
    "\n• Language: " ++ jsToUpper content.detectedLanguage ++
    "\n• Title: " ++ content.title ++
    "\n• Word Count: " ++ toString content.wordCount ++
    "\n• Scraped At: " ++ content.scrapedAt ++ "\n\n") ++
  ("⚠️ Translation Analysis Not Available:\nThis analysis only found one language version of the content. \nTranslation quality analysis requires multiple language versions to compare.\n\n" ++
    ("💡 To perform translation analysis:\n• Try a different URL that has multiple language versions\n• Look for websites with language switchers or multilingual content\n• Manually provide language URLs if you know them\n\n✅ Content Successfully Analyzed:\nThe content was successfully scraped and analyzed, but no translation \ncomparison could be performed due to insufficient language versions.\n\n" ++
      eqBar ++ "\n📄 Report generated by AI Translation Quality Analyzer\n" ++ eqBar ++ "\n"))

/-- What one run of an `analyzeUrl` entry point does after the fetch stage:
abort with "no content", produce the degraded single-language report, or
invoke the comparator and the consistency aggregator. -/
inductive RunOutcome where
  | noContent
  | singleLanguage (content : PageRecord) (report : String)
  | fullAnalysis (analysis : AggregateResult) (terminology : ConsistencyResult)
  deriving DecidableEq

/-- `TranslationQualityAnalyzer.analyzeUrl` of `analyzer.js`, from the point
where the fetch stage has produced `scrapedContent`: throw on zero records,
produce the single-language report on fewer than two, otherwise run
`analyzeTranslationQuality` and `analyzeTerminologyConsistency`. -/
def analyzeUrlPipeline (oracle : PageRecord → PageRecord → OracleOutcome)
    (co : ConsistencyOutcome) (timestamp : String)
    (scrapedContent : List PageRecord) : RunOutcome :=
  if scrapedContent.length = 0 then RunOutcome.noContent
  else if scrapedContent.length < 2 then
    match scrapedContent with
    | [] => RunOutcome.noContent
    | first :: _ =>
        RunOutcome.singleLanguage first (generateSingleLanguageReport timestamp first)
  else
    match analyzeTranslationQuality oracle scrapedContent with
    | some analysisResults =>
        RunOutcome.fullAnalysis analysisResults
          (analyzeTerminologyConsistency scrapedContent co)
    | none => RunOutcome.noContent

/-- `TranslationQualityAnalyzer.analyzeUrl` of `translation-analyzer.js`,
from the same point: it throws on zero records but has no fewer-than-two
branch, so it always runs `analyzeTranslationQuality` and
`analyzeTerminologyConsistency` on a non-empty sequence. -/
def translationAnalyzerRun (oracle : PageRecord → PageRecord → OracleOutcome)
    (co : ConsistencyOutcome) (scrapedContent : List PageRecord) : RunOutcome :=
  if scrapedContent.length = 0 then RunOutcome.noContent
  else
    match analyzeTranslationQuality oracle scrapedContent with
    | some analysisResults =>
        RunOutcome.fullAnalysis analysisResults
          (analyzeTerminologyConsistency scrapedContent co)
    | none => RunOutcome.noContent

/-- URL resolution in `scrapeMultipleLanguages` of `web-scraper.js`: a path
starting with "http" is taken as a full URL, anything else is appended to
the base URL. -/
def resolveLanguagePath (baseUrl path : String) : String :=
  if jsStartsWith path "http" then path else baseUrl ++ path

/-- One iteration of the per-URL loop of `scrapeMultipleLanguages`: push the
scraped record on success, keep the accumulator unchanged when the fetch
throws (`none`). -/
def scrapeStep (fetch : String → Option PageRecord)
    (acc : List PageRecord) (url : String) : List PageRecord :=
  match fetch url with
  | some r => acc ++ [r]
  | none => acc

/-- `WebScraper.scrapeMultipleLanguages`: try the base URL first (a failure
is only warned about), then each language path in order, skipping failed
fetches. -/
def scrapeMultipleLanguages (fetch : String → Option PageRecord)
    (baseUrl : String) (languagePaths : List String) : List PageRecord :=
  let results :=
    match fetch baseUrl with
    | some r => [r]
    | none => []
  languagePaths.foldl (fun acc path => scrapeStep fetch acc (resolveLanguagePath baseUrl path)) results

/-- Outcome of the `fs.writeFile` call inside `saveReport`. -/
inductive WriteOutcome where
  | ok
  | error (msg : String)
  deriving DecidableEq

/-- What a call of `saveReport` did: the content written (if any), the
console lines logged, and the error it let escape to the caller (`none`
when it returned normally). -/
structure SaveResult where
  written : Option String
  logs : List String
  thrown : Option String
  deriving DecidableEq

/-- `ReportGenerator.saveReport`: write the report, log success; on a write
error, log the message inside the catch and return normally. -/
def saveReport (report filename : String) (w : WriteOutcome) : SaveResult :=
  match w with
  | WriteOutcome.ok =>
      { written := some report
        logs := ["✅ Report saved to: " ++ filename]
        thrown := none }
  | WriteOutcome.error msg =>
      { written := none
        logs := ["❌ Error saving report: " ++ msg]
        thrown := none }

/-- An English page, matched by the baseline predicate via its language and
its URL. -/
def pageEn : PageRecord :=
  { url := "https://site.example/en/"
    title := "Home"
    bodyText := "the home of the products and the company"
    htmlLang := "en"
    detectedLanguage := "en"
    wordCount := 8
    scrapedAt := "2024-01-01T00:00:00.000Z" }

/-- A German page that matches neither the source baseline predicate nor
the one the specification words. -/
def pageDeA : PageRecord :=
  { url := "https://site.example/startseite"
    title := "Startseite"
    bodyText := "hallo welt"
    htmlLang := "de"
    detectedLanguage := "de"
    wordCount := 2
    scrapedAt := "2024-01-01T00:00:00.000Z" }

/-- A page whose `detectedLanguage` is "de" but whose `htmlLang` is "en":
selected by the source baseline predicate, not by the one the specification
words. -/
def pageDeB : PageRecord :=
  { url := "https://site.example/seite"
    title := "Seite"
    bodyText := "noch eine seite"
    htmlLang := "en"
    detectedLanguage := "de"
    wordCount := 3
    scrapedAt := "2024-01-01T00:00:00.000Z" }

/-- A French target page. -/
def pageFr : PageRecord :=
  { url := "https://site.example/fr/"
    title := "Accueil"
    bodyText := "le accueil de le produits"
    htmlLang := "fr"
    detectedLanguage := "fr"
    wordCount := 5
    scrapedAt := "2024-01-01T00:00:00.000Z" }

/-- A German target page (the one whose oracle call fails in the witness
scenario). -/
def pageDe3 : PageRecord :=
  { url := "https://site.example/de/"
    title := "Startseite"
    bodyText := "die startseite der produkte"
    htmlLang := "de"
    detectedLanguage := "de"
    wordCount := 4
    scrapedAt := "2024-01-01T00:00:00.000Z" }

/-- A Spanish target page. -/
def pageEs : PageRecord :=
  { url := "https://site.example/es/"
    title := "Inicio"
    bodyText := "el inicio de el productos"
    htmlLang := "es"
    detectedLanguage := "es"
    wordCount := 5
    scrapedAt := "2024-01-01T00:00:00.000Z" }

/-- A well-formed oracle response used by the witnesses. -/
def analysisSample : Analysis :=
  { qualityScore := some 85
    issues := some
      [{ type := "grammar_error"
         severity := "medium"
         message := "Wrong article"
         context := some "le produits"
         suggestion := some "Use les" }]
    suggestions := some ["Review articles"]
    terminologyIssues := some []
    brandConsistency := some [] }

/-- An oracle whose call raises unrecoverably for every target. -/
def oracleAlwaysFails : PageRecord → PageRecord → OracleOutcome :=
  fun _ _ => OracleOutcome.failed

/-- An oracle that fails for `pageDe3` and answers `analysisSample` for
every other target. -/
def oracleScenario : PageRecord → PageRecord → OracleOutcome :=
  fun _ target =>
    if target = pageDe3 then OracleOutcome.failed else OracleOutcome.parsed analysisSample

/-- A page living at the resolved language URL `https://site.example/de`. -/
def pageDeSub : PageRecord :=
  { url := "https://site.example/de"
    title := "Startseite"
    bodyText := "hallo"
    htmlLang := "de"
    detectedLanguage := "de"
    wordCount := 1
    scrapedAt := "2024-01-01T00:00:00.000Z" }

/-- A page living at the base URL `https://site.example`. -/
def pageBase : PageRecord :=
  { url := "https://site.example"
    title := "Home"
    bodyText := "the home"
    htmlLang := "en"
    detectedLanguage := "en"
    wordCount := 2
    scrapedAt := "2024-01-01T00:00:00.000Z" }

/-- A fetcher for which the base URL fetch throws but the language URL fetch
succeeds. -/
def fetchBaseFails : String → Option PageRecord :=
  fun url => if url = "https://site.example/de" then some pageDeSub else none

/-- A fetcher for which both the base URL and the language URL succeed. -/
def fetchAllOk : String → Option PageRecord :=
  fun url =>
    if url = "https://site.example" then some pageBase
    else if url = "https://site.example/de" then some pageDeSub
    else none

/-- A `toLocaleString`-style timestamp for the report witnesses. -/
def sampleTimestamp : String := "1/1/2024, 12:00:00 AM"

theorem leadsWith_nil_pat (l : List Char) : leadsWith l [] = true := by
  cases l <;> rfl

theorem containsSeq_nil_pat (l : List Char) : containsSeq l [] = true := by
  cases l with
  | nil => rfl
  | cons c cs => simp [containsSeq, leadsWith_nil_pat]

theorem leadsWith_append_of_leadsWith (l l₂ pat : List Char) (h : leadsWith l pat = true) :
    leadsWith (l ++ l₂) pat = true := by
  induction pat generalizing l with
  | nil => exact leadsWith_nil_pat _
  | cons p ps ih =>
      cases l with
      | nil => simp [leadsWith] at h
      | cons c cs =>
          simp [leadsWith] at h ⊢
          exact ⟨h.1, ih cs h.2⟩

theorem containsSeq_append_left (l₁ l₂ pat : List Char) (h : containsSeq l₂ pat = true) :
    containsSeq (l₁ ++ l₂) pat = true := by
  induction l₁ with
  | nil => simpa using h
  | cons c cs ih =>
      simp only [List.cons_append, containsSeq, Bool.or_eq_true]
      exact Or.inr ih

theorem containsSeq_append_right (l₁ l₂ pat : List Char) (h : containsSeq l₁ pat = true) :
    containsSeq (l₁ ++ l₂) pat = true := by
  induction l₁ with
  | nil =>
      cases pat with
      | nil => simpa using containsSeq_nil_pat l₂
      | cons p ps => simp [containsSeq] at h
  | cons c cs ih =>
      simp only [containsSeq, Bool.or_eq_true] at h
      simp only [List.cons_append, containsSeq, Bool.or_eq_true]
      rcases h with h | h
      · exact Or.inl (leadsWith_append_of_leadsWith _ _ _ h)
      · exact Or.inr (ih h)

theorem strIncludes_append_left (t s pat : String) (h : strIncludes s pat = true) :
    strIncludes (t ++ s) pat = true := by
  unfold strIncludes at h ⊢
  rw [String.data_append]
  exact containsSeq_append_left _ _ _ h

theorem strIncludes_append_right (s t pat : String) (h : strIncludes s pat = true) :
    strIncludes (s ++ t) pat = true := by
  unfold strIncludes at h ⊢
  rw [String.data_append]
  exact containsSeq_append_right _ _ _ h

theorem find?_first_characterization {α : Type} (p : α → Bool) (l : List α) (b : α)
    (h : l.find? p = some b) :
    p b = true ∧ ∃ l₁ l₂, l = l₁ ++ b :: l₂ ∧ ∀ r ∈ l₁, p r = false := by
  induction l with
  | nil => simp at h
  | cons a t ih =>
      by_cases hpa : p a = true
      · rw [List.find?_cons_of_pos _ hpa] at h
        obtain rfl : a = b := by simpa using h
        exact ⟨hpa, [], t, rfl, by simp⟩
      · rw [List.find?_cons_of_neg _ hpa] at h
        obtain ⟨hpb, l₁, l₂, heq, hall⟩ := ih h
        refine ⟨hpb, a :: l₁, l₂, by simp [heq], ?_⟩
        intro r hr
        rcases List.mem_cons.mp hr with rfl | hr
        · exact Bool.not_eq_true _ ▸ by simpa using hpa
        · exact hall r hr

theorem foldl_aggStep_fst_comparisons (oracle : PageRecord → PageRecord → OracleOutcome)
    (baseline : PageRecord) (l : List PageRecord)
    (s : AggregateResult × List (PageRecord × PageRecord)) :
    ((l.foldl (aggStep oracle baseline) s).1).comparisons =
      s.1.comparisons ++ l.map (fun c => compareContent baseline c (oracle baseline c)) := by
  induction l generalizing s with
  | nil => simp
  | cons c t ih =>
      rw [List.foldl_cons, ih]
      simp [aggStep]

theorem foldl_aggStep_fst_totalIssues (oracle : PageRecord → PageRecord → OracleOutcome)
    (baseline : PageRecord) (l : List PageRecord)
    (s : AggregateResult × List (PageRecord × PageRecord)) :
    ((l.foldl (aggStep oracle baseline) s).1).totalIssues =
      s.1.totalIssues +
        (l.map (fun c => (compareContent baseline c (oracle baseline c)).issues.length)).sum := by
  induction l generalizing s with
  | nil => simp
  | cons c t ih =>
      rw [List.foldl_cons, ih]
      simp [aggStep, Nat.add_assoc]

theorem foldl_aggStep_fst_criticalIssues (oracle : PageRecord → PageRecord → OracleOutcome)
    (baseline : PageRecord) (l : List PageRecord)
    (s : AggregateResult × List (PageRecord × PageRecord)) :
    ((l.foldl (aggStep oracle baseline) s).1).criticalIssues =
      s.1.criticalIssues +
        (l.map (fun c =>
          (((compareContent baseline c (oracle baseline c)).issues.filter
            (fun issue => issue.severity == "critical")).length))).sum := by
  induction l generalizing s with
  | nil => simp
  | cons c t ih =>
      rw [List.foldl_cons, ih]
      simp [aggStep, Nat.add_assoc]

theorem foldl_aggStep_fst_overallScore (oracle : PageRecord → PageRecord → OracleOutcome)
    (baseline : PageRecord) (l : List PageRecord)
    (s : AggregateResult × List (PageRecord × PageRecord)) :
    ((l.foldl (aggStep oracle baseline) s).1).overallScore = s.1.overallScore := by
  induction l generalizing s with
  | nil => rfl
  | cons c t ih =>
      rw [List.foldl_cons, ih]
      simp [aggStep]

theorem foldl_aggStep_snd (oracle : PageRecord → PageRecord → OracleOutcome)
    (baseline : PageRecord) (l : List PageRecord)
    (s : AggregateResult × List (PageRecord × PageRecord)) :
    (l.foldl (aggStep oracle baseline) s).2 =
      s.2 ++ l.map (fun c => (baseline, c)) := by
  induction l generalizing s with
  | nil => simp
  | cons c t ih =>
      rw [List.foldl_cons, ih]
      simp [aggStep]

theorem foldl_qualityScore_sum (L : List Comparison) (n : Nat) :
    L.foldl (fun sum comp => sum + comp.qualityScore) n =
      n + (L.map (fun comp => comp.qualityScore)).sum := by
  induction L generalizing n with
  | nil => simp
  | cons c t ih =>
      rw [List.foldl_cons, ih]
      simp [Nat.add_assoc]

theorem comparisons_analyzeAgainstBaseline (oracle : PageRecord → PageRecord → OracleOutcome)
    (baseline : PageRecord) (allContent : List PageRecord) :
    (analyzeAgainstBaseline oracle baseline allContent).comparisons =
      (allContent.filter (fun content => content.url != baseline.url)).map
        (fun c => compareContent baseline c (oracle baseline c)) := by
  simp only [analyzeAgainstBaseline, analyzeAgainstBaselineTraced]
  split <;> simp [foldl_aggStep_fst_comparisons, initialAggregate]

theorem trace_analyzeAgainstBaselineTraced (oracle : PageRecord → PageRecord → OracleOutcome)
    (baseline : PageRecord) (allContent : List PageRecord) :
    (analyzeAgainstBaselineTraced oracle baseline allContent).2 =
      (allContent.filter (fun content => content.url != baseline.url)).map
        (fun c => (baseline, c)) := by
  simp only [analyzeAgainstBaselineTraced]
  split <;> simp [foldl_aggStep_snd]

theorem totalIssues_analyzeAgainstBaseline (oracle : PageRecord → PageRecord → OracleOutcome)
    (baseline : PageRecord) (allContent : List PageRecord) :
    (analyzeAgainstBaseline oracle baseline allContent).totalIssues =
      ((analyzeAgainstBaseline oracle baseline allContent).comparisons.map
        (fun comp => comp.issues.length)).sum := by
  rw [comparisons_analyzeAgainstBaseline, List.map_map]
  simp only [analyzeAgainstBaseline, analyzeAgainstBaselineTraced]
  split <;> simp [foldl_aggStep_fst_totalIssues, initialAggregate, Function.comp_def]

theorem criticalIssues_analyzeAgainstBaseline (oracle : PageRecord → PageRecord → OracleOutcome)
    (baseline : PageRecord) (allContent : List PageRecord) :
    (analyzeAgainstBaseline oracle baseline allContent).criticalIssues =
      ((analyzeAgainstBaseline oracle baseline allContent).comparisons.map
        (fun comp =>
          (comp.issues.filter (fun issue => issue.severity == "critical")).length)).sum := by
  rw [comparisons_analyzeAgainstBaseline, List.map_map]
  simp only [analyzeAgainstBaseline, analyzeAgainstBaselineTraced]
  split <;> simp [foldl_aggStep_fst_criticalIssues, initialAggregate, Function.comp_def]

theorem cast_foldl_qualityScore (L : List Comparison) :
    ((L.foldl (fun sum comp => sum + comp.qualityScore) 0 : Nat) : ℚ) =
      (L.map (fun comp => (comp.qualityScore : ℚ))).sum := by
  rw [foldl_qualityScore_sum, Nat.zero_add, Nat.cast_list_sum, List.map_map]
  rfl

theorem overallScore_analyzeAgainstBaseline (oracle : PageRecord → PageRecord → OracleOutcome)
    (baseline : PageRecord) (allContent : List PageRecord) :
    (analyzeAgainstBaseline oracle baseline allContent).overallScore =
      if (analyzeAgainstBaseline oracle baseline allContent).comparisons = [] then 0
      else jsRound
        (((analyzeAgainstBaseline oracle baseline allContent).comparisons.map
            (fun comp => (comp.qualityScore : ℚ))).sum /
          ((analyzeAgainstBaseline oracle baseline allContent).comparisons.length : ℚ)) := by
  rw [comparisons_analyzeAgainstBaseline]
  have hF : (List.foldl (aggStep oracle baseline)
        (initialAggregate baseline, ([] : List (PageRecord × PageRecord)))
        (allContent.filter (fun content => content.url != baseline.url))).1.comparisons =
      (allContent.filter (fun content => content.url != baseline.url)).map
        (fun c => compareContent baseline c (oracle baseline c)) := by
    rw [foldl_aggStep_fst_comparisons]
    simp [initialAggregate]
  simp only [analyzeAgainstBaseline, analyzeAgainstBaselineTraced]
  split
  case isTrue h =>
      rw [hF] at h
      rw [if_neg (List.ne_nil_of_length_pos h)]
      simp only [hF, cast_foldl_qualityScore]
  case isFalse h =>
      have h0 := List.length_eq_zero.mp (Nat.eq_zero_of_not_pos h)
      rw [hF] at h0
      rw [if_pos h0]
      simp [foldl_aggStep_fst_overallScore, initialAggregate]

theorem foldl_scrapeStep_resolve (fetch : String → Option PageRecord) (baseUrl : String)
    (paths : List String) (acc : List PageRecord) :
    paths.foldl (fun acc path => scrapeStep fetch acc (resolveLanguagePath baseUrl path)) acc =
      acc ++ (paths.map (resolveLanguagePath baseUrl)).filterMap fetch := by
  induction paths generalizing acc with
  | nil => simp
  | cons p t ih =>
      rw [List.foldl_cons, ih]
      cases hf : fetch (resolveLanguagePath baseUrl p) <;>
        simp [scrapeStep, hf, List.filterMap_cons]

theorem scrapeMultipleLanguages_eq_filterMap (fetch : String → Option PageRecord)
    (baseUrl : String) (languagePaths : List String) :
    scrapeMultipleLanguages fetch baseUrl languagePaths =
      (baseUrl :: languagePaths.map (resolveLanguagePath baseUrl)).filterMap fetch := by
  simp only [scrapeMultipleLanguages]
  cases hf : fetch baseUrl <;>
    simp [foldl_scrapeStep_resolve, List.filterMap_cons, hf]

/-- C1: For every AggregateResult produced by `analyzeAgainstBaseline`,
`overallScore` equals the rounded mean of the `qualityScore` fields of its
comparisons when the comparisons sequence is non-empty, and equals 0 when it
is empty; in particular it is 0 whenever every comparison is degraded with
score 0. -/
theorem overall_score_rounded_mean (oracle : PageRecord → PageRecord → OracleOutcome)
    (baseline : PageRecord) (allContent : List PageRecord) :
    ((analyzeAgainstBaseline oracle baseline allContent).comparisons ≠ [] →
      (analyzeAgainstBaseline oracle baseline allContent).overallScore =
        jsRound
          (((analyzeAgainstBaseline oracle baseline allContent).comparisons.map
              (fun comp => (comp.qualityScore : ℚ))).sum /
            ((analyzeAgainstBaseline oracle baseline allContent).comparisons.length : ℚ))) ∧
    ((analyzeAgainstBaseline oracle baseline allContent).comparisons = [] →
      (analyzeAgainstBaseline oracle baseline allContent).overallScore = 0) ∧
    ((∀ comp ∈ (analyzeAgainstBaseline oracle baseline allContent).comparisons,
        comp.qualityScore = 0) →
      (analyzeAgainstBaseline oracle baseline allContent).overallScore = 0) := by
  refine ⟨?_, ?_, ?_⟩
  · intro h
    rw [overallScore_analyzeAgainstBaseline, if_neg h]
  · intro h
    rw [overallScore_analyzeAgainstBaseline, if_pos h]
  · intro h
    rw [overallScore_analyzeAgainstBaseline]
    split
    · rfl
    case isFalse hne =>
      have hz : ((analyzeAgainstBaseline oracle baseline allContent).comparisons.map
          (fun comp => (comp.qualityScore : ℚ))).sum = 0 := by
        apply List.sum_eq_zero
        intro x hx
        obtain ⟨c, hc, rfl⟩ := List.mem_map.mp hx
        rw [h c hc]
        norm_num
      rw [hz, zero_div]
      norm_num [jsRound]

/-- C1 witness: a run with two targets, one parsed with score 85 and one
failed with score 0, has non-empty comparisons and the stated overall
score. -/
theorem overall_score_rounded_mean_witness :
    (analyzeAgainstBaseline oracleScenario pageEn [pageEn, pageFr, pageDe3]).comparisons ≠ [] ∧
    (analyzeAgainstBaseline oracleScenario pageEn [pageEn, pageFr, pageDe3]).overallScore =
      jsRound
        (((analyzeAgainstBaseline oracleScenario pageEn [pageEn, pageFr, pageDe3]).comparisons.map
            (fun comp => (comp.qualityScore : ℚ))).sum /
          ((analyzeAgainstBaseline oracleScenario pageEn
            [pageEn, pageFr, pageDe3]).comparisons.length : ℚ)) :=
  ⟨by decide,
    (overall_score_rounded_mean oracleScenario pageEn [pageEn, pageFr, pageDe3]).1 (by decide)⟩

/-- C2: For every AggregateResult produced by `analyzeAgainstBaseline`,
`totalIssues` is the sum of the per-comparison issue counts,
`criticalIssues` is the sum of the per-comparison counts of issues with
severity "critical", and consequently `criticalIssues ≤ totalIssues`. -/
theorem issue_totals_correct (oracle : PageRecord → PageRecord → OracleOutcome)
    (baseline : PageRecord) (allContent : List PageRecord) :
    (analyzeAgainstBaseline oracle baseline allContent).totalIssues =
      ((analyzeAgainstBaseline oracle baseline allContent).comparisons.map
        (fun comp => comp.issues.length)).sum ∧
    (analyzeAgainstBaseline oracle baseline allContent).criticalIssues =
      ((analyzeAgainstBaseline oracle baseline allContent).comparisons.map
        (fun comp =>
          (comp.issues.filter (fun issue => issue.severity == "critical")).length)).sum ∧
    (analyzeAgainstBaseline oracle baseline allContent).criticalIssues ≤
      (analyzeAgainstBaseline oracle baseline allContent).totalIssues := by
  refine ⟨totalIssues_analyzeAgainstBaseline oracle baseline allContent,
    criticalIssues_analyzeAgainstBaseline oracle baseline allContent, ?_⟩
  rw [totalIssues_analyzeAgainstBaseline, criticalIssues_analyzeAgainstBaseline]
  apply List.sum_le_sum
  intro comp _
  exact List.length_filter_le _ _

/-- C5: The comparator invokes the quality oracle exactly once per record
whose URL differs from the baseline URL, in input order, and the
comparisons sequence has exactly one comparison per such record in the same
order. -/
theorem comparator_call_order (oracle : PageRecord → PageRecord → OracleOutcome)
    (baseline : PageRecord) (allContent : List PageRecord) :
    (analyzeAgainstBaselineTraced oracle baseline allContent).2 =
      (allContent.filter (fun content => content.url != baseline.url)).map
        (fun c => (baseline, c)) ∧
    (analyzeAgainstBaseline oracle baseline allContent).comparisons =
      (allContent.filter (fun content => content.url != baseline.url)).map
        (fun c => compareContent baseline c (oracle baseline c)) :=
  ⟨trace_analyzeAgainstBaselineTraced oracle baseline allContent,
    comparisons_analyzeAgainstBaseline oracle baseline allContent⟩

/-- C6: When the consistency-oracle call fails, the consistency aggregator
returns the zeroed structure (empty term list, empty brand list, score 0)
instead of propagating the error. -/
theorem consistency_failure_zeroed (scrapedContent : List PageRecord) :
    analyzeTerminologyConsistency scrapedContent ConsistencyOutcome.failed =
      zeroedConsistency ∧
    zeroedConsistency.inconsistentTerms = [] ∧
    zeroedConsistency.brandInconsistencies = [] ∧
    zeroedConsistency.overallConsistencyScore = 0 :=
  ⟨rfl, rfl, rfl, rfl⟩

/-- C10: `saveReport` returns normally for every write outcome; a write
error is only logged, never rethrown to the caller. -/
theorem save_report_never_propagates (report filename msg : String) :
    (saveReport report filename WriteOutcome.ok).thrown = none ∧
    (saveReport report filename (WriteOutcome.error msg)).thrown = none ∧
    (saveReport report filename (WriteOutcome.error msg)).written = none ∧
    (saveReport report filename (WriteOutcome.error msg)).logs =
      ["❌ Error saving report: " ++ msg] :=
  ⟨rfl, rfl, rfl, rfl⟩

/-- C3 counterexample: `pageDeB` satisfies none of the claim's conditions
(`specBaselinePred` is false for both records), so the claim requires the
fallback to the first record `pageDeA`; the code instead selects `pageDeB`
because its `htmlLang` is "en" — a condition the claim says does not
exist. -/
theorem baseline_selector_spec_counterexample :
    specBaselinePred pageDeA = false ∧ specBaselinePred pageDeB = false ∧
    specSelectBaseline [pageDeA, pageDeB] = some pageDeA ∧
    selectBaseline [pageDeA, pageDeB] = some pageDeB ∧
    pageDeA ≠ pageDeB := by decide

/-- C3 (amended): for every non-empty record sequence the baseline selector
chooses the first record whose `detectedLanguage` is "en" or whose
`htmlLang` is "en" or whose URL contains "/en/" or "/english/"
(`isEnglishBaseline`); if no record satisfies these conditions, it chooses
the first record of the sequence. -/
theorem baseline_selector_characterization (scrapedContent : List PageRecord)
    (h : scrapedContent ≠ []) :
    ∃ b, selectBaseline scrapedContent = some b ∧
      ((isEnglishBaseline b = true ∧
        ∃ l₁ l₂, scrapedContent = l₁ ++ b :: l₂ ∧
          ∀ r ∈ l₁, isEnglishBaseline r = false) ∨
       ((∀ r ∈ scrapedContent, isEnglishBaseline r = false) ∧
        scrapedContent.head? = some b)) := by
  cases hfind : scrapedContent.find? isEnglishBaseline with
  | some e =>
      obtain ⟨hpe, l₁, l₂, heq, hall⟩ := find?_first_characterization _ _ _ hfind
      exact ⟨e, by simp [selectBaseline, hfind], Or.inl ⟨hpe, l₁, l₂, heq, hall⟩⟩
  | none =>
      cases scrapedContent with
      | nil => exact absurd rfl h
      | cons a t =>
          refine ⟨a, by simp [selectBaseline, hfind], Or.inr ⟨?_, rfl⟩⟩
          intro r hr
          have hnr := List.find?_eq_none.mp hfind r hr
          simpa using hnr

/-- C3 witness: the amended characterization applied to the singleton
sequence `[pageDeA]`. -/
theorem baseline_selector_characterization_witness :
    (([pageDeA] : List PageRecord) ≠ []) ∧
    (∃ b, selectBaseline [pageDeA] = some b ∧
      ((isEnglishBaseline b = true ∧
        ∃ l₁ l₂, ([pageDeA] : List PageRecord) = l₁ ++ b :: l₂ ∧
          ∀ r ∈ l₁, isEnglishBaseline r = false) ∨
       ((∀ r ∈ ([pageDeA] : List PageRecord), isEnglishBaseline r = false) ∧
        ([pageDeA] : List PageRecord).head? = some b))) :=
  ⟨by decide, baseline_selector_characterization [pageDeA] (by decide)⟩

/-- C4: a record of the comparison loop whose oracle invocation fails is
still represented: the comparisons sequence has exactly one entry per
non-baseline record, the degraded comparison for the failed target is among
them, it has quality score 0 and exactly one synthetic issue of type
"analysis_error" with severity "critical", and `totalIssues` is at least
1. -/
theorem oracle_failure_degraded (oracle : PageRecord → PageRecord → OracleOutcome)
    (baseline : PageRecord) (allContent : List PageRecord) (target : PageRecord)
    (ht : target ∈ allContent.filter (fun content => content.url != baseline.url))
    (hf : oracle baseline target = OracleOutcome.failed) :
    (analyzeAgainstBaseline oracle baseline allContent).comparisons.length =
      (allContent.filter (fun content => content.url != baseline.url)).length ∧
    degradedComparison target ∈
      (analyzeAgainstBaseline oracle baseline allContent).comparisons ∧
    (degradedComparison target).qualityScore = 0 ∧
    (degradedComparison target).issues = [analysisErrorIssue] ∧
    analysisErrorIssue.type = "analysis_error" ∧
    analysisErrorIssue.severity = "critical" ∧
    1 ≤ (analyzeAgainstBaseline oracle baseline allContent).totalIssues := by
  have hc := comparisons_analyzeAgainstBaseline oracle baseline allContent
  have hmem : degradedComparison target ∈
      (analyzeAgainstBaseline oracle baseline allContent).comparisons := by
    rw [hc]
    have hm := List.mem_map_of_mem (fun c => compareContent baseline c (oracle baseline c)) ht
    simpa [hf, compareContent] using hm
  refine ⟨by rw [hc, List.length_map], hmem, rfl, rfl, rfl, rfl, ?_⟩
  rw [totalIssues_analyzeAgainstBaseline]
  have h1 : (1 : Nat) ∈
      ((analyzeAgainstBaseline oracle baseline allContent).comparisons.map
        (fun comp => comp.issues.length)) := by
    have hm := List.mem_map_of_mem (fun comp => comp.issues.length) hmem
    simpa [degradedComparison] using hm
  exact List.single_le_sum (fun x _ => Nat.zero_le x) 1 h1

/-- C4 witness: the oracle raises for one of three targets; the aggregate
still has exactly 3 comparisons, the failed target's comparison is degraded
with score 0 and a single analysis_error issue, and `totalIssues ≥ 1`. -/
theorem oracle_failure_degraded_witness :
    (pageDe3 ∈ [pageEn, pageFr, pageDe3, pageEs].filter
        (fun content => content.url != pageEn.url)) ∧
    oracleScenario pageEn pageDe3 = OracleOutcome.failed ∧
    (analyzeAgainstBaseline oracleScenario pageEn
      [pageEn, pageFr, pageDe3, pageEs]).comparisons.length = 3 ∧
    ((analyzeAgainstBaseline oracleScenario pageEn
        [pageEn, pageFr, pageDe3, pageEs]).comparisons.length =
      ([pageEn, pageFr, pageDe3, pageEs].filter
        (fun content => content.url != pageEn.url)).length ∧
    degradedComparison pageDe3 ∈
      (analyzeAgainstBaseline oracleScenario pageEn
        [pageEn, pageFr, pageDe3, pageEs]).comparisons ∧
    (degradedComparison pageDe3).qualityScore = 0 ∧
    (degradedComparison pageDe3).issues = [analysisErrorIssue] ∧
    analysisErrorIssue.type = "analysis_error" ∧
    analysisErrorIssue.severity = "critical" ∧
    1 ≤ (analyzeAgainstBaseline oracleScenario pageEn
      [pageEn, pageFr, pageDe3, pageEs]).totalIssues) :=
  ⟨by decide, by decide, by decide,
    oracle_failure_degraded oracleScenario pageEn [pageEn, pageFr, pageDe3, pageEs] pageDe3
      (by decide) (by decide)⟩

/-- C7 counterexample: a run through `translation-analyzer.js`'s
`analyzeUrl` with exactly one fetched record does invoke the comparator and
the consistency aggregator (the outcome is `fullAnalysis`, not the degraded
single-language report), because that entry point has no fewer-than-two
check. -/
theorem single_version_counterexample :
    ([pageDeA] : List PageRecord).length = 1 ∧
    translationAnalyzerRun oracleAlwaysFails ConsistencyOutcome.failed [pageDeA] =
      RunOutcome.fullAnalysis (initialAggregate pageDeA) zeroedConsistency := by
  exact ⟨rfl, by decide⟩

/-- C7 (amended): for runs through `analyzer.js`'s `analyzeUrl`, a fetch
stage yielding exactly one record skips the comparator and the consistency
aggregator and produces the degraded single-language report, which states
that translation quality analysis requires multiple language versions;
`translation-analyzer.js`'s `analyzeUrl` lacks this branch and invokes
both. -/
theorem single_version_fallback (oracle : PageRecord → PageRecord → OracleOutcome)
    (co : ConsistencyOutcome) (timestamp : String) (scrapedContent : List PageRecord)
    (h : scrapedContent.length = 1) :
    ∃ c, scrapedContent = [c] ∧
      analyzeUrlPipeline oracle co timestamp scrapedContent =
        RunOutcome.singleLanguage c (generateSingleLanguageReport timestamp c) ∧
      strIncludes (generateSingleLanguageReport timestamp c)
        "Translation quality analysis requires multiple language versions to compare." =
        true := by
  obtain ⟨c, rfl⟩ := List.length_eq_one.mp h
  refine ⟨c, rfl, rfl, ?_⟩
  unfold generateSingleLanguageReport
  apply strIncludes_append_left
  apply strIncludes_append_right
  decide

/-- C7 witness: the amended fallback applied to the singleton fetch result
`[pageDeA]`. -/
theorem single_version_fallback_witness :
    ([pageDeA] : List PageRecord).length = 1 ∧
    (∃ c, ([pageDeA] : List PageRecord) = [c] ∧
      analyzeUrlPipeline oracleAlwaysFails ConsistencyOutcome.failed sampleTimestamp
          [pageDeA] =
        RunOutcome.singleLanguage c (generateSingleLanguageReport sampleTimestamp c) ∧
      strIncludes (generateSingleLanguageReport sampleTimestamp c)
        "Translation quality analysis requires multiple language versions to compare." =
        true) :=
  ⟨rfl,
    single_version_fallback oracleAlwaysFails ConsistencyOutcome.failed sampleTimestamp
      [pageDeA] rfl⟩

/-- C8 counterexample: when the base URL's fetch fails but a language URL's
fetch succeeds, the resulting sequence is non-empty and its first element
is not the page of the originally requested URL. -/
theorem fetch_first_element_counterexample :
    scrapeMultipleLanguages fetchBaseFails "https://site.example" ["/de"] = [pageDeSub] ∧
    pageDeSub.url ≠ "https://site.example" := by decide

/-- C8 (amended): the scraped sequence is exactly the ordered URL list
(base URL first, then the resolved language paths) filtered by fetch
success — failures only omit the failed URL's record, never reorder the
rest — and whenever the base URL's fetch succeeds the first element is its
page. -/
theorem fetch_order_preserved (fetch : String → Option PageRecord)
    (baseUrl : String) (languagePaths : List String) :
    scrapeMultipleLanguages fetch baseUrl languagePaths =
      (baseUrl :: languagePaths.map (resolveLanguagePath baseUrl)).filterMap fetch ∧
    (∀ r, fetch baseUrl = some r →
      ∃ rest, scrapeMultipleLanguages fetch baseUrl languagePaths = r :: rest) := by
  refine ⟨scrapeMultipleLanguages_eq_filterMap fetch baseUrl languagePaths, ?_⟩
  intro r hr
  refine ⟨(languagePaths.map (resolveLanguagePath baseUrl)).filterMap fetch, ?_⟩
  rw [scrapeMultipleLanguages_eq_filterMap]
  simp [List.filterMap_cons, hr]

/-- C8 witness: with a fetcher that succeeds on the base URL, the base page
is the first element of the scraped sequence. -/
theorem fetch_order_preserved_witness :
    fetchAllOk "https://site.example" = some pageBase ∧
    (∃ rest, scrapeMultipleLanguages fetchAllOk "https://site.example" ["/de"] =
      pageBase :: rest) :=
  ⟨by decide,
    (fetch_order_preserved fetchAllOk "https://site.example" ["/de"]).2 pageBase (by decide)⟩

/-- C9: `compareContent` returns a well-formed comparison for every oracle
outcome: the target metadata always comes from the target record, a parsed
or salvaged analysis is read field-by-field with its defaults (score 0 and
empty lists for missing fields), and a failed outcome yields exactly the
degraded comparison. -/
theorem compare_content_total (baseline target : PageRecord) (o : OracleOutcome) :
    (compareContent baseline target o).targetUrl = target.url ∧
    (compareContent baseline target o).targetLanguage = target.detectedLanguage ∧
    (compareContent baseline target o).targetTitle = target.title ∧
    (∀ a, o = OracleOutcome.parsed a ∨ o = OracleOutcome.salvaged a →
      (compareContent baseline target o).qualityScore = a.qualityScore.getD 0 ∧
      (compareContent baseline target o).issues = a.issues.getD [] ∧
      (compareContent baseline target o).suggestions = a.suggestions.getD [] ∧
      (compareContent baseline target o).terminologyIssues = a.terminologyIssues.getD [] ∧
      (compareContent baseline target o).brandConsistency = a.brandConsistency.getD []) ∧
    (o = OracleOutcome.failed → compareContent baseline target o = degradedComparison target) := by
  cases o with
  | parsed a =>
      refine ⟨rfl, rfl, rfl, ?_, fun hcon => OracleOutcome.noConfusion hcon⟩
      rintro a' (hcon | hcon)
      · injection hcon with ha
        subst ha
        exact ⟨rfl, rfl, rfl, rfl, rfl⟩
      · exact OracleOutcome.noConfusion hcon
  | salvaged a =>
      refine ⟨rfl, rfl, rfl, ?_, fun hcon => OracleOutcome.noConfusion hcon⟩
      rintro a' (hcon | hcon)
      · exact OracleOutcome.noConfusion hcon
      · injection hcon with ha
        subst ha
        exact ⟨rfl, rfl, rfl, rfl, rfl⟩
  | failed =>
      refine ⟨rfl, rfl, rfl, ?_, fun _ => rfl⟩
      rintro a' (hcon | hcon) <;> exact OracleOutcome.noConfusion hcon

/-- C9 witness: the field equations of `compare_content_total` at a parsed
sample analysis and at a failed outcome. -/
theorem compare_content_total_witness :
    (OracleOutcome.parsed analysisSample = OracleOutcome.parsed analysisSample ∨
      OracleOutcome.parsed analysisSample = OracleOutcome.salvaged analysisSample) ∧
    ((compareContent pageEn pageDe3 (OracleOutcome.parsed analysisSample)).qualityScore =
        analysisSample.qualityScore.getD 0 ∧
      (compareContent pageEn pageDe3 (OracleOutcome.parsed analysisSample)).issues =
        analysisSample.issues.getD [] ∧
      (compareContent pageEn pageDe3 (OracleOutcome.parsed analysisSample)).suggestions =
        analysisSample.suggestions.getD [] ∧
      (compareContent pageEn pageDe3 (OracleOutcome.parsed analysisSample)).terminologyIssues =
        analysisSample.terminologyIssues.getD [] ∧
      (compareContent pageEn pageDe3 (OracleOutcome.parsed analysisSample)).brandConsistency =
        analysisSample.brandConsistency.getD []) ∧
    (OracleOutcome.failed = OracleOutcome.failed ∧
      compareContent pageEn pageDe3 OracleOutcome.failed = degradedComparison pageDe3) :=
  ⟨Or.inl rfl,
    (compare_content_total pageEn pageDe3 (OracleOutcome.parsed analysisSample)).2.2.2.1
      analysisSample (Or.inl rfl),
    rfl,
    (compare_content_total pageEn pageDe3 OracleOutcome.failed).2.2.2.2 rfl⟩
